import Mathlib

/-
Verification development for the rozelle exercise-evaluation core.

Shallow embedding of:
  src/rozelle/constraints.py  (constraint model and scanner)
  src/rozelle/sandbox.py      (code assembler, mangling, execution harness)
  src/rozelle/exercise.py     (outcome classification, Exercise.run)

Modelling conventions:
  - Python `int` is modelled as `Int`; Python `float` timing values as `ℚ`
    (no floating-point arithmetic is ever performed on them by the code under
    study: they are only carried through).
  - Python `str` is modelled as `String`; where character-level reasoning is
    needed (identifier mangling) we work on `String.data : List Char`.
  - A Python function that can raise an exception not caught by the code under
    study is modelled as returning `Option`/`Except`; a `none`/`.error` that the
    source would let escape represents an uncaught exception.
  - `ast.parse` and `ast.unparse` (the CPython parser/printer) are external to
    the repository and are taken as parameters of the relevant definitions; the
    parsed syntax tree itself is modelled by the inductive `Py` below.
  - A Python `dict` keyed by (frozen, structurally-equal) constraints is
    modelled as an association list in key-insertion order; a Python `set` is
    modelled by the duplicate-free list of its elements in that same order
    (iteration order of a CPython set is unspecified, and no claim below
    depends on it).
-/

namespace Rozelle

/-- Model of a CPython `ast` node as the scanner and the mangler observe it:
a node has a syntactic kind (`type(node).__name__`), `Name` nodes carry an
identifier (`.id`), `Call` nodes carry a callee (`.func`) followed by the rest
of their children, and every node has an ordered list of child nodes
(`ast.iter_child_nodes`). -/
inductive Py : Type where
  | Name (id : String) (children : List Py)
  | Call (func : Py) (rest : List Py)
  | Other (kind : String) (children : List Py)

/-- The node's syntactic kind name, `type(node).__name__` in Python. -/
def Py.kindName : Py → String
  | .Name _ _ => "Name"
  | .Call _ _ => "Call"
  | .Other k _ => k

/-- Python attribute access `node.id` on a callee: defined exactly when the
node is an `ast.Name`; on any other node it raises `AttributeError` (`none`). -/
def Py.funcId : Py → Option String
  | .Name id _ => some id
  | _ => none

mutual

/-- A tree is well formed when it could have been produced by `ast.parse`:
every node whose kind is `Call` is a genuine call node (with a callee) and
every node whose kind is `Name` is a genuine name node. -/
def wfT : Py → Bool
  | .Name _ ch => wfL ch
  | .Call f args => wfT f && wfL args
  | .Other k ch => !(k == "Name" || k == "Call") && wfL ch

/-- Well-formedness of a list of trees. -/
def wfL : List Py → Bool
  | [] => true
  | t :: ts => wfT t && wfL ts

end

/-- Well-formedness of a single parsed tree. -/
def Py.wellFormed (t : Py) : Bool := wfT t

namespace Constraints

/-- `ConstraintType` from constraints.py. -/
inductive ConstraintType : Type where
  | Call
  | Node
deriving DecidableEq

/-- `ConstraintLimit` from constraints.py: optional integer bounds. -/
structure ConstraintLimit : Type where
  minimum : Option Int
  maximum : Option Int
deriving DecidableEq

/-- `ConstraintLimit.is_satisfied` from constraints.py:
`min_satisfied = self.minimum is None or count >= self.minimum`,
`max_satisfied = self.maximum is None or count <= self.maximum`. -/
def ConstraintLimit.is_satisfied (l : ConstraintLimit) (count : Int) : Bool :=
  let min_satisfied :=
    match l.minimum with
    | none => true
    | some m => decide (m ≤ count)
  let max_satisfied :=
    match l.maximum with
    | none => true
    | some m => decide (count ≤ m)
  min_satisfied && max_satisfied

/-- `Constraint` from constraints.py (the fields `on` and `match` are Lean
keywords and are rendered `on_` and `match_`). -/
structure Constraint : Type where
  description : String
  on_ : ConstraintType
  match_ : String
  limits : ConstraintLimit
deriving DecidableEq

/-- `DisallowedCall` from constraints.py. -/
def DisallowedCall (name : String) : Constraint :=
  { description := "You cannot use the `" ++ name ++ "` function."
    on_ := ConstraintType.Call
    match_ := name
    limits := { minimum := none, maximum := some 0 } }

/-- `DisallowedNode` from constraints.py. -/
def DisallowedNode (name : String) (description : String) : Constraint :=
  { description := description
    on_ := ConstraintType.Node
    match_ := name
    limits := { minimum := none, maximum := some 0 } }

/-- `ConstraintScanner.__init__`: the dict comprehension
`{c: 0 for c in constraints}`.  A CPython dict keeps one entry per
structurally-equal key, at the position of its first insertion, so duplicate
constraints collapse to a single counter. -/
def constraint_counts_init (constraints : List Constraint) :
    List (Constraint × Int) :=
  constraints.foldl
    (fun acc c => if acc.any (fun p => p.1 == c) then acc else acc ++ [(c, 0)]) []

/-- The body of the `for c in self.constraint_counts.keys()` loop of
`ConstraintScanner.generic_visit` for one constraint `c` at one node:

  if c.on == ConstraintType.Node and type(node).__name__ == c.match: count += 1
  if isinstance(node, ast.Call) and c.on == ConstraintType.Call
     and node.func.id == c.match: count += 1

The second condition evaluates `node.func.id`, which raises `AttributeError`
(modelled as `none`) whenever the callee is not an `ast.Name`. -/
def bumpConstraint (node : Py) (c : Constraint) (n : Int) : Option Int :=
  let n1 := if c.on_ = ConstraintType.Node ∧ node.kindName = c.match_ then n + 1 else n
  match node with
  | .Call f _ =>
      if c.on_ = ConstraintType.Call then
        match f.funcId with
        | none => none
        | some fid => some (if fid = c.match_ then n1 + 1 else n1)
      else some n1
  | _ => some n1

/-- One execution of `ConstraintScanner.generic_visit` at a single node:
iterate over the counter dict in key order, updating each counter; an
`AttributeError` raised at any entry aborts the whole visit. -/
def visit_counts (node : Py) : List (Constraint × Int) → Option (List (Constraint × Int))
  | [] => some []
  | (c, n) :: rest =>
      match bumpConstraint node c n with
      | none => none
      | some n1 =>
          match visit_counts node rest with
          | none => none
          | some rest1 => some ((c, n1) :: rest1)

mutual

/-- The full scanner traversal (`ast.NodeVisitor` depth-first pre-order):
visit a node (updating all counters), then its children in order.  `none`
models the `AttributeError` escaping. -/
def scanT : Py → List (Constraint × Int) → Option (List (Constraint × Int))
  | .Name id ch, counts =>
      match visit_counts (.Name id ch) counts with
      | none => none
      | some c1 => scanL ch c1
  | .Call f args, counts =>
      match visit_counts (.Call f args) counts with
      | none => none
      | some c1 =>
          match scanT f c1 with
          | none => none
          | some c2 => scanL args c2
  | .Other k ch, counts =>
      match visit_counts (.Other k ch) counts with
      | none => none
      | some c1 => scanL ch c1

/-- The traversal over a list of sibling nodes, left to right. -/
def scanL : List Py → List (Constraint × Int) → Option (List (Constraint × Int))
  | [], counts => some counts
  | t :: ts, counts =>
      match scanT t counts with
      | none => none
      | some c1 => scanL ts c1

end

/-- `check_constraints` from constraints.py: run the scanner over the tree and
collect the constraints whose final count does not satisfy their limits.  The
Python function returns them as a `set`; we return the duplicate-free list of
its elements in counter order.  `none` models the scanner raising. -/
def check_constraints (python_ast : Py) (constraints : List Constraint) :
    Option (List Constraint) :=
  (scanT python_ast (constraint_counts_init constraints)).map
    (fun counts =>
      (counts.filter (fun p => !p.1.limits.is_satisfied p.2)).map Prod.fst)

end Constraints

namespace Sandbox

/-- The SyntaxError value `ast.parse` raises on malformed source: its message
and the line number it reports. -/
structure PySyntaxError : Type where
  msg : String
  lineno : Int
deriving DecidableEq

/-- The reserved identifier marker, the local constant MANGLE_PREFIX of
`_mangle_identifier_if_possible` in sandbox.py, as a character list. -/
def mangleMarkerChars : List Char := "_RZ_MANGLE__".data

/-- `_SALT_SYSTEM = 0` from sandbox.py. -/
def _SALT_SYSTEM : Int := 0

/-- `_SALT_EXERCISE = 1` from sandbox.py. -/
def _SALT_EXERCISE : Int := 1

/-- `_SALT_ATTEMPT: None = None` from sandbox.py. -/
def _SALT_ATTEMPT : Option Int := none

/-- `_TIMEOUT_SECONDS = 20` from sandbox.py. -/
def _TIMEOUT_SECONDS : ℚ := 20

/-- Python `s.replace(old, new, count=1)` for a non-empty `old`: replace the
first (leftmost) occurrence of `old`, scanning character by character. -/
def replaceFirst (old new : List Char) : List Char → List Char
  | [] => []
  | c :: rest =>
      if old.isPrefixOf (c :: rest) then new ++ (c :: rest).drop old.length
      else c :: replaceFirst old new rest

/-- The replacement text inserted by `_mangle_identifier_if_possible`:
the f-string interpolation of the salt and of the `secrets.token_hex(8)` value
(the latter supplied by the token oracle, see below). -/
def mangledReplacementChars (salt : Int) (tk : String) : List Char :=
  ("_rozelle_mangled_" ++ toString salt ++ "_" ++ tk ++ "__").data

/-- `_mangle_identifier_if_possible` from sandbox.py.

`tok` models `secrets.token_hex(8)` under the `@cache` decorator: within one
process the function is memoised on `(name, salt)`, so the random token drawn
for a pair is a fixed function of that pair; `tok` is that function, kept
abstract.

Python:  `name.replace(MANGLE_PREFIX, f"_rozelle_mangled_{salt}_{token}__",
count=1) if name.startswith(MANGLE_PREFIX) else name`. -/
def _mangle_identifier_if_possible (tok : String → Int → String)
    (name : String) (salt : Int) : String :=
  if mangleMarkerChars.isPrefixOf name.data then
    ⟨replaceFirst mangleMarkerChars
      (mangledReplacementChars salt (tok name salt)) name.data⟩
  else name

mutual

/-- `_NameMangler.visit` from sandbox.py (an `ast.NodeTransformer` whose
`visit_Name` rewrites every `Name` node's identifier and keeps everything else;
`generic_visit` rebuilds the other nodes from their transformed children). -/
def mangleT (tok : String → Int → String) (salt : Int) : Py → Py
  | .Name id ch => .Name (_mangle_identifier_if_possible tok id salt) ch
  | .Call f args => .Call (mangleT tok salt f) (mangleL tok salt args)
  | .Other k ch => .Other k (mangleL tok salt ch)

/-- The mangler's traversal of a child list. -/
def mangleL (tok : String → Int → String) (salt : Int) : List Py → List Py
  | [] => []
  | t :: ts => mangleT tok salt t :: mangleL tok salt ts

end

/-- The identifier-rewriting stage of `_prepare_python_source`: apply the name
mangler exactly when `mangle_salt is not None`. -/
def applyMangleStage (tok : String → Int → String) (mangle_salt : Option Int)
    (code_ast : Py) : Py :=
  match mangle_salt with
  | some s => mangleT tok s code_ast
  | none => code_ast

/-- `_prepare_python_source` from sandbox.py: parse the fragment, rewrite
identifiers when a salt is given, and re-serialise.  `parse` and `unparse`
model `ast.parse` / `ast.unparse`; a `SyntaxError` from `ast.parse`
propagates to the caller (`.error`). -/
def _prepare_python_source (parse : String → Except PySyntaxError Py)
    (unparse : Py → String) (tok : String → Int → String)
    (code : String) (mangle_salt : Option Int) : Except PySyntaxError String :=
  match parse code with
  | .error se => .error se
  | .ok code_ast => .ok (unparse (applyMangleStage tok mangle_salt code_ast))

/-- Python `s.split(sep, 1)` for a non-empty `sep`, at the character level:
the pieces before and after the first occurrence of `sep`, or `none` when
`sep` does not occur (Python then returns the one-element list `[s]`). -/
def splitOnce (sep : List Char) : List Char → Option (List Char × List Char)
  | [] => none
  | c :: rest =>
      if sep.isPrefixOf (c :: rest) then some ([], (c :: rest).drop sep.length)
      else
        match splitOnce sep rest with
        | none => none
        | some (pre, post) => some (c :: pre, post)

/-- The accumulator loop behind `pySplitlines`. -/
def splitlinesAux : List Char → List Char → List String
  | [], acc => if acc.isEmpty then [] else [⟨acc.reverse⟩]
  | c :: rest, acc =>
      if c = '\n' then ⟨acc.reverse⟩ :: splitlinesAux rest []
      else splitlinesAux rest (c :: acc)

/-- Python `str.splitlines()` restricted to newline separators: a final
newline produces no trailing empty line, and the empty string yields no
lines. -/
def pySplitlines (s : String) : List String := splitlinesAux s.data []

/-- `_process_error_output` from sandbox.py: the last line of the captured
stderr, or a default message when there is none. -/
def _process_error_output (error : Option String) : String :=
  let DEFAULT := "Could not get error information from Pyodide."
  match error with
  | none => DEFAULT
  | some e =>
      match (pySplitlines e).getLast? with
      | none => DEFAULT
      | some last => last

/-- `_substring_between_two_substrings` from sandbox.py:
`input.split(left, 1)[1].split(right, 1)[0]`.  When `left` does not occur in
`input`, `split` returns a single-element list and the `[1]` raises an
uncaught `IndexError`, modelled as `none`; when `right` does not occur in the
remainder, `[0]` is the whole remainder. -/
def _substring_between_two_substrings (input left right : String) : Option String :=
  match splitOnce left.data input.data with
  | none => none
  | some (_, afterLeft) =>
      match splitOnce right.data afterLeft with
      | none => some ⟨afterLeft⟩
      | some (beforeRight, _) => some ⟨beforeRight⟩

/-- `CodeExecutionResult`, the value returned by the external Pyodide engine
(langchain_sandbox), at the interface the spec fixes: a status string and the
optionally captured stdout/stderr. -/
structure CodeExecutionResult : Type where
  status : String
  stdout : Option String
  stderr : Option String
deriving DecidableEq

/-- One engine invocation, modelled by its wall-clock completion time in
seconds together with the result it would deliver on completion. -/
structure EngineInvocation : Type where
  completionSeconds : ℚ
  result : CodeExecutionResult
deriving DecidableEq

/-- `_sandbox_execute_with_timeout` from sandbox.py.  The body races the
engine task against `asyncio.wait`'s timeout: the task is in the completed set
exactly when it finished by the deadline; otherwise (`len(incomplete) != 0`)
the task is cancelled and `None` is returned. -/
def _sandbox_execute_with_timeout (inv : EngineInvocation) :
    Option CodeExecutionResult :=
  if inv.completionSeconds ≤ _TIMEOUT_SECONDS then some inv.result else none

/-- `ExecutionResult` from sandbox.py (the Python `set[str]` of tokens is
modelled as the list of its elements). -/
structure ExecutionResult : Type where
  success : Bool
  output : String
  tokens : Option (List String)
  attempt_time_seconds : Option ℚ
deriving DecidableEq

/-- `_ExecutionStreamResults` from sandbox.py: the pydantic schema of the JSON
envelope the trusted post-fragment emits. -/
structure _ExecutionStreamResults : Type where
  stdout : List String
  tokens : List String
  attempt_time_seconds : ℚ
deriving DecidableEq

/-- A `json.JSONDecodeError`: its `.msg`. -/
structure JsonDecodeError : Type where
  msg : String
deriving DecidableEq

/-- A pydantic `ValidationError`; the code interpolates `ve.errors` into an
f-string, which we keep as an opaque rendering. -/
structure ValidationError : Type where
  errors : String
deriving DecidableEq

/-- `_SnippetAssemblyContext` from sandbox.py. -/
structure _SnippetAssemblyContext : Type where
  name : String
  text : String
  mangle_salt : Option Int
deriving DecidableEq

/-- The ordered fragment tuple `assembly` built inside `execute_attempt`
(exercise prerun/postrun are `Optional[str]`; `x or ""` maps both `None` and
`""` to `""`). -/
def assembly (snippet01 snippet03 snippet05 snippet07 : String)
    (attempt_code : String) (exercise_prerun exercise_postrun : Option String) :
    List _SnippetAssemblyContext :=
  [ { name := "system, before exercise prerun", text := snippet01,
      mangle_salt := some _SALT_SYSTEM },
    { name := "exercise prerun", text := exercise_prerun.getD "",
      mangle_salt := some _SALT_EXERCISE },
    { name := "system, after exercise prerun", text := snippet03,
      mangle_salt := some _SALT_SYSTEM },
    { name := "attempt", text := attempt_code, mangle_salt := _SALT_ATTEMPT },
    { name := "system, before exercise postrun", text := snippet05,
      mangle_salt := some _SALT_SYSTEM },
    { name := "exercise postrun", text := exercise_postrun.getD "",
      mangle_salt := some _SALT_EXERCISE },
    { name := "system, after exercise postrun", text := snippet07,
      mangle_salt := some _SALT_SYSTEM } ]

/-- The fragment-assembly loop of `execute_attempt`: skip empty fragments,
prepare each remaining one, and either return the concatenated program text or
— on the first fragment whose source fails to parse — return early with the
labelled unsuccessful `ExecutionResult` the except-branch builds. -/
def assemble (parse : String → Except PySyntaxError Py) (unparse : Py → String)
    (tok : String → Int → String) :
    List _SnippetAssemblyContext → String → Except ExecutionResult String
  | [], acc => .ok acc
  | a :: rest, acc =>
      if a.text.length = 0 then assemble parse unparse tok rest acc
      else
        match _prepare_python_source parse unparse tok a.text a.mangle_salt with
        | .error se =>
            .error { success := false
                     output := "SyntaxError at <" ++ a.name ++ "> on line "
                       ++ toString se.lineno ++ ":\n  " ++ se.msg
                     tokens := none
                     attempt_time_seconds := none }
        | .ok prepared => assemble parse unparse tok rest (acc ++ prepared ++ "\n\n")

/-- The classification tail of `execute_attempt`, acting on the value produced
by `_sandbox_execute_with_timeout`:
`None` → timeout message; non-success status → last stderr line; absent stdout
→ access failure; otherwise extract the sentinel-framed payload (an uncaught
`IndexError`, i.e. `none`, when the BEGIN sentinel is absent), decode it as
JSON (`jsonLoads` models `json.loads` into some JSON value type `J`) and
validate it (`parse_obj` models `_ExecutionStreamResults.parse_obj`), each
failure caught and converted to an unsuccessful result. -/
def classifySandboxResult {J : Type} (jsonLoads : String → Except JsonDecodeError J)
    (parse_obj : J → Except ValidationError _ExecutionStreamResults)
    (sandbox_result : Option CodeExecutionResult) : Option ExecutionResult :=
  match sandbox_result with
  | none =>
      some { success := false, output := "The attempt took too long to execute.",
             tokens := none, attempt_time_seconds := none }
  | some r =>
      if r.status ≠ "success" then
        some { success := false, output := _process_error_output r.stderr,
               tokens := none, attempt_time_seconds := none }
      else
        match r.stdout with
        | none =>
            some { success := false, output := "Standard output could not be accessed.",
                   tokens := none, attempt_time_seconds := none }
        | some out =>
            match _substring_between_two_substrings out
                "--- BEGIN JSON RESPONSE ---" "--- END JSON RESPONSE ---" with
            | none => none
            | some payload =>
                match jsonLoads payload with
                | .error jsonde =>
                    some { success := false
                           output := "The sandbox failed to return a valid result ("
                             ++ jsonde.msg ++ ")"
                           tokens := none, attempt_time_seconds := some 0 }
                | .ok j =>
                    match parse_obj j with
                    | .error ve =>
                        some { success := false
                               output := "The sandbox failed to return a valid result ("
                                 ++ ve.errors ++ ")"
                               tokens := none, attempt_time_seconds := some 0 }
                    | .ok result =>
                        some { success := true
                               output := String.intercalate "\n" result.stdout
                               tokens := some result.tokens
                               attempt_time_seconds := some result.attempt_time_seconds }

/-- `execute_attempt` from sandbox.py: assemble the fragments (the four
trusted snippet texts are read from package resources and passed in here),
submit the program to the engine under the timeout, and classify the outcome.
`engine` maps the assembled program text to the engine invocation it triggers.
`none` models an exception escaping `execute_attempt`. -/
def execute_attempt {J : Type} (parse : String → Except PySyntaxError Py)
    (unparse : Py → String) (tok : String → Int → String)
    (jsonLoads : String → Except JsonDecodeError J)
    (parse_obj : J → Except ValidationError _ExecutionStreamResults)
    (snippet01 snippet03 snippet05 snippet07 : String)
    (engine : String → EngineInvocation)
    (attempt_code : String) (exercise_prerun exercise_postrun : Option String) :
    Option ExecutionResult :=
  match assemble parse unparse tok
      (assembly snippet01 snippet03 snippet05 snippet07
        attempt_code exercise_prerun exercise_postrun) "" with
  | .error r => some r
  | .ok code =>
      classifySandboxResult jsonLoads parse_obj
        (_sandbox_execute_with_timeout (engine code))

end Sandbox

open Constraints Sandbox

/-- Modelled from the spec: `DisallowedFunctionConstraint`, imported by
exercise.py from rozelle.constraints, is missing from src/ (constraints.py
provides `DisallowedCall` instead).  Per the spec (§3, §4.1, glossary) the
critical rules for `exec`/`eval`/`open` are forbidden-call constraints —
`maximum = 0`, target a named call — which is exactly `DisallowedCall`. -/
def DisallowedFunctionConstraint (name : String) : Constraint :=
  DisallowedCall name

/-- Modelled from the spec: the first entry of `_CRITICAL_CONSTRAINTS` in
exercise.py is built with fields (`ast_regex = r"Import(?:From)?"`,
`min_required`, `max_allowed`) of a `Constraint` version missing from src/.
Under the `Constraint` model of constraints.py — exact node-kind match, no
regex — the spec's "no imports" rule covering both `Import` and `ImportFrom`
nodes is rendered as two forbidden-node constraints sharing the source's
description. -/
def noImportConstraint : Constraint :=
  { description := "You cannot import any other code."
    on_ := ConstraintType.Node, match_ := "Import"
    limits := { minimum := none, maximum := some 0 } }

/-- The companion rule for the `ImportFrom` node kind (see
`noImportConstraints`). -/
def noImportFromConstraint : Constraint :=
  { description := "You cannot import any other code."
    on_ := ConstraintType.Node, match_ := "ImportFrom"
    limits := { minimum := none, maximum := some 0 } }

/-- The spec's "no imports" critical rule as the pair of forbidden-node
constraints above. -/
def noImportConstraints : List Constraint :=
  [noImportConstraint, noImportFromConstraint]

/-- `_CRITICAL_CONSTRAINTS` from exercise.py: the fixed critical policy —
no imports, and no `exec`/`eval`/`open` calls (see the two modelling notes
above for the parts of its construction missing from src/). -/
def _CRITICAL_CONSTRAINTS : List Constraint :=
  noImportConstraints
    ++ [ DisallowedFunctionConstraint "exec",
         DisallowedFunctionConstraint "eval",
         DisallowedFunctionConstraint "open" ]

/-- Modelled from the spec: `ExecutionOutputs`, imported by exercise.py from
rozelle.sandbox, is missing from src/.  Per the spec (§3 Execution Envelope,
§4.5 step 5) it carries the attempt-code-only captured stdout lines, the
postrun-captured lines, and — as used by `Exercise.run` — the error lines of a
failed execution. -/
structure ExecutionOutputs : Type where
  attempt : List String
  postrun : List String
  error : List String
deriving DecidableEq

/-- Modelled from the spec: the execution result as `Exercise.run` consumes it
(`result.success`, `result.output : ExecutionOutputs`,
`result.attempt_time_seconds`); the `ExecutionResult` of sandbox.py as given
in src/ instead has a plain string `output` field, so the record at this
boundary is reconstructed from the spec's §4.4/§6 interface. -/
structure AttemptExecutionResult : Type where
  success : Bool
  output : ExecutionOutputs
  attempt_time_seconds : Option ℚ
deriving DecidableEq

/-- `OutputSelection` from exercise.py. -/
inductive OutputSelection : Type where
  | Attempt
  | Postrun
  | NoCheck
deriving DecidableEq

/-- `OutputSelection.get_output_stream` from exercise.py:
`"\n".join(...).strip()` on the selected stream, or `None` for `NoCheck`
(Python `str.strip()` is modelled by `String.trim`). -/
def OutputSelection.get_output_stream (sel : OutputSelection)
    (outputs : ExecutionOutputs) : Option String :=
  match sel with
  | .Attempt => some (String.intercalate "\n" outputs.attempt).trim
  | .Postrun => some (String.intercalate "\n" outputs.postrun).trim
  | .NoCheck => none

/-- `ExerciseDefinedCode` from exercise.py. -/
structure ExerciseDefinedCode : Type where
  prerun : String
  postrun : String
deriving DecidableEq

/-- `Exercise` from exercise.py (the TOML loader `from_toml` is the
out-of-scope boundary; an `Exercise` value arrives already validated). -/
structure Exercise : Type where
  message : String
  expected_output : String
  constraints : List Constraint
  hide_constraints : Bool
  hide_expected_output : Bool
  code : ExerciseDefinedCode
  check_expected_output_from : OutputSelection
deriving DecidableEq

/-- The `Result` variants of exercise.py: `FailAST`, `FailConstraints`,
`FailProgramError`, `FailOutput` and `Pass` (the spec's `FailParse`,
`FailPolicy`, `FailRuntime`, `FailOutputMismatch`, `Pass`). -/
inductive Result : Type where
  | FailAST (error : PySyntaxError)
  | FailConstraints (critical : Bool) (failed_constraint_descriptions : List String)
  | FailProgramError (error : String)
  | FailOutput (expected : String) (got : String)
  | Pass (attempt_time_seconds : ℚ)
deriving DecidableEq

/-- `Exercise.run` from exercise.py.  The attempt file's text enters the
function only through `ast.parse`, modelled by its outcome `parsed`; the
`execute_attempt` boundary is modelled by the result `execResult` it would
return for this run (execution is only reached when every earlier check
passes).  `none` models an exception escaping `run` — which happens exactly
when the constraint scanner raises.  `run` mutates `se.filename` before
returning `FailAST se`; the file name is not part of the model.
`result.attempt_time_seconds or 0.0` maps both `None` and `0.0` to `0.0`. -/
def Exercise.run (ex : Exercise) (parsed : Except PySyntaxError Py)
    (execResult : AttemptExecutionResult) : Option Result :=
  match parsed with
  | .error se => some (.FailAST se)
  | .ok python_ast =>
      match check_constraints python_ast _CRITICAL_CONSTRAINTS with
      | none => none
      | some failed_criticals =>
          if failed_criticals.length ≠ 0 then
            some (.FailConstraints true (failed_criticals.map (·.description)))
          else
            match check_constraints python_ast ex.constraints with
            | none => none
            | some failed =>
                if failed.length ≠ 0 then
                  some (.FailConstraints false (failed.map (·.description)))
                else if !execResult.success then
                  some (.FailProgramError
                    (String.intercalate "\n" execResult.output.error))
                else
                  let expected := ex.expected_output.trim
                  match ex.check_expected_output_from.get_output_stream
                      execResult.output with
                  | some got =>
                      if expected ≠ got then some (.FailOutput expected got)
                      else some (.Pass (execResult.attempt_time_seconds.getD 0))
                  | none => some (.Pass (execResult.attempt_time_seconds.getD 0))

/-- The outcome state machine as §4.5 of the spec words it, taken verbatim from
the spec for the refinement claim: the six steps evaluated strictly in order —
parse failure, critical violation, exercise violation, harness failure, output
mismatch, pass — given the violation lists the two scans produce. -/
def outcomeStateMachine (ex : Exercise) (parsed : Except PySyntaxError Py)
    (criticalViolations exerciseViolations : List Constraint)
    (execResult : AttemptExecutionResult) : Result :=
  match parsed with
  | .error se => .FailAST se
  | .ok _ =>
      if criticalViolations ≠ [] then
        .FailConstraints true (criticalViolations.map (·.description))
      else if exerciseViolations ≠ [] then
        .FailConstraints false (exerciseViolations.map (·.description))
      else if !execResult.success then
        .FailProgramError (String.intercalate "\n" execResult.output.error)
      else
        match ex.check_expected_output_from.get_output_stream execResult.output with
        | some got =>
            if ex.expected_output.trim ≠ got then
              .FailOutput ex.expected_output.trim got
            else .Pass (execResult.attempt_time_seconds.getD 0)
        | none => .Pass (execResult.attempt_time_seconds.getD 0)

/-! ## Scanner support lemmas -/

namespace Constraints

/-- A visit of a single node never changes the key column of the counter dict. -/
theorem visit_counts_keys (node : Py) (cl : List (Constraint × Int)) :
    ∀ res, visit_counts node cl = some res → res.map Prod.fst = cl.map Prod.fst := by
  induction cl with
  | nil =>
      intro res h
      simp only [visit_counts, Option.some.injEq] at h
      subst h
      rfl
  | cons p rest ih =>
      obtain ⟨c, n⟩ := p
      intro res h
      simp only [visit_counts] at h
      cases hb : bumpConstraint node c n <;> rw [hb] at h
      · simp at h
      · cases hv : visit_counts node rest <;> rw [hv] at h
        · simp at h
        · simp only [Option.some.injEq] at h
          subst h
          simp [ih _ hv]

mutual

/-- The traversal of a single tree never changes the key column of the counter
dict. -/
theorem scanT_keys :
    ∀ (t : Py) (cl res : List (Constraint × Int)), scanT t cl = some res →
      res.map Prod.fst = cl.map Prod.fst
  | .Name id ch, cl, res, h => by
      simp only [scanT] at h
      split at h
      · exact absurd h (by simp)
      next c1 hv =>
        exact (scanL_keys ch c1 res h).trans (visit_counts_keys _ cl c1 hv)
  | .Call f args, cl, res, h => by
      simp only [scanT] at h
      split at h
      · exact absurd h (by simp)
      next c1 hv =>
        split at h
        · exact absurd h (by simp)
        next c2 hf =>
          exact ((scanL_keys args c2 res h).trans (scanT_keys f c1 c2 hf)).trans
            (visit_counts_keys _ cl c1 hv)
  | .Other k ch, cl, res, h => by
      simp only [scanT] at h
      split at h
      · exact absurd h (by simp)
      next c1 hv =>
        exact (scanL_keys ch c1 res h).trans (visit_counts_keys _ cl c1 hv)

/-- The traversal of a sibling list never changes the key column of the
counter dict. -/
theorem scanL_keys :
    ∀ (ns : List Py) (cl res : List (Constraint × Int)), scanL ns cl = some res →
      res.map Prod.fst = cl.map Prod.fst
  | [], cl, res, h => by
      simp only [scanL, Option.some.injEq] at h
      subst h
      rfl
  | t :: ts, cl, res, h => by
      simp only [scanL] at h
      split at h
      · exact absurd h (by simp)
      next c1 ht =>
        exact (scanL_keys ts c1 res h).trans (scanT_keys t cl c1 ht)

end

/-- The dict-insertion step of `constraint_counts_init`. -/
def initStep (acc : List (Constraint × Int)) (c : Constraint) :
    List (Constraint × Int) :=
  if acc.any (fun p => p.1 == c) then acc else acc ++ [(c, 0)]

theorem constraint_counts_init_eq_foldl (cs : List Constraint) :
    constraint_counts_init cs = cs.foldl initStep [] := rfl

/-- Key membership after folding the insertion step: a key is present exactly
when it was already in the accumulator or occurs in the remaining input. -/
theorem foldl_initStep_keys (cs : List Constraint) :
    ∀ (acc : List (Constraint × Int)) (x : Constraint),
      (x ∈ (cs.foldl initStep acc).map Prod.fst ↔ x ∈ acc.map Prod.fst ∨ x ∈ cs) := by
  induction cs with
  | nil => intro acc x; simp
  | cons c cs ih =>
      intro acc x
      rw [List.foldl_cons, ih (initStep acc c) x]
      unfold initStep
      by_cases hany : acc.any (fun p => p.1 == c) = true
      · rw [if_pos hany]
        have hc : c ∈ acc.map Prod.fst := by
          rcases List.any_eq_true.mp hany with ⟨p, hp, hpc⟩
          exact List.mem_map.mpr ⟨p, hp, by simpa using hpc⟩
        constructor
        · rintro (h | h)
          · exact Or.inl h
          · exact Or.inr (List.mem_cons_of_mem c h)
        · rintro (h | h)
          · exact Or.inl h
          · rcases List.mem_cons.mp h with h | h
            · exact Or.inl (h ▸ hc)
            · exact Or.inr h
      · rw [if_neg hany]
        simp only [List.map_append, List.map_cons, List.map_nil, List.mem_append,
          List.mem_singleton, List.mem_cons]
        tauto

/-- Folding the insertion step preserves distinctness of the keys. -/
theorem foldl_initStep_keys_nodup (cs : List Constraint) :
    ∀ (acc : List (Constraint × Int)), (acc.map Prod.fst).Nodup →
      ((cs.foldl initStep acc).map Prod.fst).Nodup := by
  induction cs with
  | nil => intro acc h; simpa using h
  | cons c cs ih =>
      intro acc h
      rw [List.foldl_cons]
      refine ih (initStep acc c) ?_
      unfold initStep
      by_cases hany : acc.any (fun p => p.1 == c) = true
      · rwa [if_pos hany]
      · rw [if_neg hany]
        simp only [List.map_append, List.map_cons, List.map_nil]
        refine List.Nodup.append h (List.nodup_singleton c) ?_
        intro x hx hx1
        rw [List.mem_singleton] at hx1
        subst hx1
        rcases List.mem_map.mp hx with ⟨p, hp, hpx⟩
        exact hany (List.any_eq_true.mpr ⟨p, hp, by simp [hpx]⟩)

/-- The keys of the initial counter dict are pairwise distinct (a dict has one
entry per structurally-equal key). -/
theorem constraint_counts_init_keys_nodup (cs : List Constraint) :
    ((constraint_counts_init cs).map Prod.fst).Nodup := by
  rw [constraint_counts_init_eq_foldl]
  exact foldl_initStep_keys_nodup cs [] (by simp)

/-- Inserting a key already present is a no-op. -/
theorem initStep_of_mem (acc : List (Constraint × Int)) (c : Constraint)
    (h : c ∈ acc.map Prod.fst) : initStep acc c = acc := by
  rcases List.mem_map.mp h with ⟨p, hp, hpc⟩
  unfold initStep
  rw [if_pos (List.any_eq_true.mpr ⟨p, hp, by simp [hpc]⟩)]

/-- Appending a constraint already present leaves the initial counter dict
unchanged: a dict keyed by structural equality collapses duplicates. -/
theorem constraint_counts_init_append_dup (cs : List Constraint) (c : Constraint)
    (h : c ∈ cs) : constraint_counts_init (cs ++ [c]) = constraint_counts_init cs := by
  rw [constraint_counts_init_eq_foldl, List.foldl_append, List.foldl_cons,
    List.foldl_nil, constraint_counts_init_eq_foldl]
  have hc : c ∈ (cs.foldl initStep []).map Prod.fst := by
    rw [foldl_initStep_keys cs [] c]
    exact Or.inr h
  exact initStep_of_mem _ c hc

end Constraints

/-! ## Concrete parse trees used by counterexamples and witnesses -/

open Constraints Sandbox

/-- The parse tree of the attempt source `x.f()`: a module whose single
statement is an expression statement holding a call whose callee is an
attribute access (a method call), not a plain name. -/
def methodCallTree : Py :=
  Py.Other "Module"
    [Py.Other "Expr"
      [Py.Call (Py.Other "Attribute" [Py.Name "x" [Py.Other "Load" []]]) []]]

/-- The parse tree of the attempt source `import os`. -/
def importTree : Py :=
  Py.Other "Module" [Py.Other "Import" [Py.Other "alias" []]]

/-- The parse tree of an attempt that both imports a module and performs a
method call: `import os` followed by `x.f()`. -/
def importAndMethodCallTree : Py :=
  Py.Other "Module"
    [Py.Other "Import" [Py.Other "alias" []],
     Py.Other "Expr"
      [Py.Call (Py.Other "Attribute" [Py.Name "x" [Py.Other "Load" []]]) []]]

/-- The parse tree of the attempt source `print("hi")`: a call whose callee is
the plain name `print`. -/
def printCallTree : Py :=
  Py.Other "Module"
    [Py.Other "Expr"
      [Py.Call (Py.Name "print" [Py.Other "Load" []]) [Py.Other "Constant" []]]]

/-! ## Claim C7: the satisfiability predicate -/

/-- C7 counterexample: the claim's consequence "for every constraint with
maximum = 0, a count of zero is satisfied" fails on the code for a constraint
whose limit also sets a positive minimum: with `minimum = 1, maximum = 0`
(constructible, both fields are independent optional ints) a count of zero is
NOT satisfied, because the minimum clause of `is_satisfied` fails. -/
theorem max_zero_with_min_set_rejects_zero :
    (Constraint.mk "use f at least once and never" ConstraintType.Call "f"
        (ConstraintLimit.mk (some 1) (some 0))).limits.is_satisfied 0 = false := by
  decide

/-- C7 (amended): for every constraint limit and non-negative count,
`is_satisfied` holds exactly when (minimum unset OR count ≥ minimum) AND
(maximum unset OR count ≤ maximum); consequently, for every constraint with
`maximum = 0` and no minimum set — as the forbidden-call and forbidden-node
constructors produce — a count of zero is satisfied and every count of one or
more is a violation. -/
theorem is_satisfied_characterisation (l : ConstraintLimit) (count : Int)
    (h : 0 ≤ count) :
    (l.is_satisfied count = true ↔
      ((l.minimum = none ∨ ∃ m, l.minimum = some m ∧ m ≤ count) ∧
       (l.maximum = none ∨ ∃ m, l.maximum = some m ∧ count ≤ m))) ∧
    (l.maximum = some 0 → l.minimum = none →
      (l.is_satisfied 0 = true ∧ ∀ c : Int, 1 ≤ c → l.is_satisfied c = false)) := by
  constructor
  · cases hmin : l.minimum <;> cases hmax : l.maximum <;>
      simp [ConstraintLimit.is_satisfied, hmin, hmax]
  · intro hmax hmin
    refine ⟨by simp [ConstraintLimit.is_satisfied, hmin, hmax], ?_⟩
    intro c hc
    simp only [ConstraintLimit.is_satisfied, hmin, hmax]
    simp
    omega

/-- C7 witness: the characterisation evaluated at the limit of
`DisallowedCall "exec"` (minimum unset, maximum 0) and count 0. -/
theorem is_satisfied_characterisation_witness :
    (0 : Int) ≤ 0 ∧
    (((DisallowedCall "exec").limits.is_satisfied 0 = true ↔
      (((DisallowedCall "exec").limits.minimum = none ∨
          ∃ m, (DisallowedCall "exec").limits.minimum = some m ∧ m ≤ 0) ∧
       ((DisallowedCall "exec").limits.maximum = none ∨
          ∃ m, (DisallowedCall "exec").limits.maximum = some m ∧ (0 : Int) ≤ m))) ∧
     ((DisallowedCall "exec").limits.maximum = some 0 →
      (DisallowedCall "exec").limits.minimum = none →
      ((DisallowedCall "exec").limits.is_satisfied 0 = true ∧
       ∀ c : Int, 1 ≤ c → (DisallowedCall "exec").limits.is_satisfied c = false))) :=
  ⟨by decide, is_satisfied_characterisation (DisallowedCall "exec").limits 0 (by decide)⟩

/-! ## Claim C3: the scanner on a call with a non-name callee -/

/-- C3 (code bug): the claim — and the spec — say the scanner never fails on a
well-formed tree and that a call whose callee is not a plain name simply never
matches a Call-target constraint.  The code instead evaluates `node.func.id`
unguarded, raising `AttributeError`.  Evaluating the embedded scanner at the
(well-formed) tree of `x.f()` with the single constraint `DisallowedCall "f"`:
the scan aborts (`none`) instead of completing with no violation. -/
theorem scanner_crashes_on_method_call :
    methodCallTree.wellFormed = true ∧
    check_constraints methodCallTree [DisallowedCall "f"] = none := by
  decide

/-! ## Claim C10: duplicate constraints collapse -/

/-- C10: structurally equal duplicate constraints share a single occurrence
counter — appending a constraint already in the list leaves the whole scan
unchanged, crash behaviour included — and the violation set returned by
`check_constraints` contains each distinct constraint at most once. -/
theorem duplicate_constraints_collapse :
    (∀ (cs : List Constraint) (c : Constraint) (t : Py), c ∈ cs →
       check_constraints t (cs ++ [c]) = check_constraints t cs) ∧
    (∀ (cs : List Constraint) (t : Py) (vs : List Constraint),
       check_constraints t cs = some vs → vs.Nodup) := by
  constructor
  · intro cs c t hmem
    unfold check_constraints
    rw [constraint_counts_init_append_dup cs c hmem]
  · intro cs t vs h
    unfold check_constraints at h
    cases hs : scanT t (constraint_counts_init cs) <;> rw [hs] at h
    · simp at h
    next counts =>
      simp at h
      subst h
      have hkeys : counts.map Prod.fst = (constraint_counts_init cs).map Prod.fst :=
        scanT_keys _ _ _ hs
      have hnd : (counts.map Prod.fst).Nodup := by
        rw [hkeys]
        exact constraint_counts_init_keys_nodup cs
      exact hnd.sublist ((List.filter_sublist _).map Prod.fst)

/-- C10 witness: the collapse evaluated on a duplicated no-import constraint
against the tree of `import os`. -/
theorem duplicate_constraints_collapse_witness :
    (DisallowedNode "Import" "no imports" ∈ [DisallowedNode "Import" "no imports"] ∧
     check_constraints importTree
        ([DisallowedNode "Import" "no imports"] ++ [DisallowedNode "Import" "no imports"])
       = check_constraints importTree [DisallowedNode "Import" "no imports"]) ∧
    (check_constraints importTree [DisallowedNode "Import" "no imports"]
       = some [DisallowedNode "Import" "no imports"] ∧
     [DisallowedNode "Import" "no imports"].Nodup) := by
  have hcc : check_constraints importTree [DisallowedNode "Import" "no imports"]
      = some [DisallowedNode "Import" "no imports"] := by
    decide
  exact ⟨⟨by simp, duplicate_constraints_collapse.1 _ _ _ (by simp)⟩,
         ⟨hcc, duplicate_constraints_collapse.2 _ _ _ hcc⟩⟩

/-! ## Claims C1 and C2: the outcome state machine -/

/-- A sample exercise used by concrete counterexamples and witnesses. -/
def sampleExercise : Exercise :=
  { message := "Say hello"
    expected_output := "hello"
    constraints := []
    hide_constraints := false
    hide_expected_output := false
    code := { prerun := "", postrun := "" }
    check_expected_output_from := OutputSelection.Attempt }

/-- A sample successful execution result for the sample exercise. -/
def sampleExecResult : AttemptExecutionResult :=
  { success := true
    output := { attempt := ["hello"], postrun := [], error := [] }
    attempt_time_seconds := some 1 }

/-- Evaluation: the critical scan of `x.f()` aborts (the `exec`/`eval`/`open`
entries of the critical set are Call constraints and the callee is not a
name). -/
theorem check_critical_methodCallTree :
    check_constraints methodCallTree _CRITICAL_CONSTRAINTS = none := by
  decide

/-- Evaluation: the critical scan of `print("hi")` completes with no
violation. -/
theorem check_critical_printCallTree :
    check_constraints printCallTree _CRITICAL_CONSTRAINTS = some [] := by
  decide

/-- Evaluation: the critical scan of `import os` completes and reports the
no-import rule violated. -/
theorem check_critical_importTree :
    check_constraints importTree _CRITICAL_CONSTRAINTS = some [noImportConstraint] := by
  decide

/-- C1 counterexample: the claim says every run produces exactly one Outcome.
For the attempt `x.f()` — which parses, so the run reaches the critical scan —
the scanner defect aborts `Exercise.run` with an uncaught `AttributeError`
(`none`): no Outcome variant at all is produced. -/
theorem run_produces_no_outcome_on_method_call :
    Exercise.run sampleExercise (.ok methodCallTree) sampleExecResult = none := by
  simp [Exercise.run, check_critical_methodCallTree]

/-- C1 (amended): provided the two constraint scans complete (they abort on a
call node with a non-name callee — the scanner defect of the code), one
evaluation run produces exactly one Outcome, and it is the one computed by the
spec's §4.5 state machine: terminal states tested strictly in the order parse
failure, critical violation, exercise violation, harness failure, output
mismatch, then pass — the first applicable state wins, and no combined or
partial outcome exists. -/
theorem run_refines_outcome_state_machine (ex : Exercise)
    (er : AttemptExecutionResult) :
    (∀ se, ex.run (.error se) er = some (.FailAST se)) ∧
    (∀ (t : Py) (cv ev : List Constraint),
      check_constraints t _CRITICAL_CONSTRAINTS = some cv →
      check_constraints t ex.constraints = some ev →
      ex.run (.ok t) er = some (outcomeStateMachine ex (.ok t) cv ev er)) := by
  constructor
  · intro se
    rfl
  · intro t cv ev hc he
    simp only [Exercise.run, outcomeStateMachine, hc, he]
    by_cases h1 : cv = []
    · subst h1
      simp only [List.length_nil, ne_eq, not_true_eq_false, if_false]
      by_cases h2 : ev = []
      · subst h2
        simp only [List.length_nil, ne_eq, not_true_eq_false, if_false]
        split
        · rfl
        · split
          · split <;> rfl
          · rfl
      · have hlen2 : ev.length ≠ 0 := by simpa using h2
        simp [hlen2, h2]
    · have hlen1 : cv.length ≠ 0 := by simpa using h1
      simp [hlen1, h1]

/-- C1 witness: the refinement applied to the sample exercise, once at a parse
failure and once at the parsed tree of `print("hi")`, whose scans complete. -/
theorem run_refines_outcome_state_machine_witness :
    Exercise.run sampleExercise (.error { msg := "invalid syntax", lineno := 1 })
        sampleExecResult
      = some (.FailAST { msg := "invalid syntax", lineno := 1 }) ∧
    Exercise.run sampleExercise (.ok printCallTree) sampleExecResult
      = some (outcomeStateMachine sampleExercise (.ok printCallTree) [] []
          sampleExecResult) := by
  have he : check_constraints printCallTree sampleExercise.constraints = some [] := by
    decide
  exact ⟨(run_refines_outcome_state_machine sampleExercise sampleExecResult).1 _,
         (run_refines_outcome_state_machine sampleExercise sampleExecResult).2
           printCallTree [] [] check_critical_printCallTree he⟩

/-- C2 counterexample: the claim says that whenever at least one critical
violation exists, the run returns the critical `FailConstraints`.  The attempt
`import os` followed by `x.f()` violates the critical no-import rule (first
conjunct: the scan of the no-import rules alone completes and reports it), yet
the run produces no `FailConstraints` at all — the critical scan, which also
carries the `exec`/`eval`/`open` Call constraints, aborts on the method call
(second conjunct). -/
theorem critical_violation_lost_to_scanner_crash :
    check_constraints importAndMethodCallTree noImportConstraints
      = some [noImportConstraint] ∧
    Exercise.run sampleExercise (.ok importAndMethodCallTree) sampleExecResult
      = none := by
  constructor
  · decide
  · have hcrit : check_constraints importAndMethodCallTree _CRITICAL_CONSTRAINTS
        = none := by decide
    simp [Exercise.run, hcrit]

/-- C2 (amended): whenever the critical scan completes and reports at least
one violation, the run returns `FailConstraints` with `critical = true` and the
descriptions of all critical violations — and it does so whatever the
exercise-defined constraints and execution result are: the exercise constraints
are never scanned and execution is never reached. -/
theorem critical_violations_short_circuit (ex : Exercise)
    (er : AttemptExecutionResult) (t : Py) (cv : List Constraint)
    (hc : check_constraints t _CRITICAL_CONSTRAINTS = some cv) (hne : cv ≠ []) :
    Exercise.run ex (.ok t) er
      = some (.FailConstraints true (cv.map (·.description))) ∧
    ∀ (cs2 : List Constraint) (er2 : AttemptExecutionResult),
      Exercise.run { ex with constraints := cs2 } (.ok t) er2
        = some (.FailConstraints true (cv.map (·.description))) := by
  have hlen : cv.length ≠ 0 := by simpa using hne
  refine ⟨?_, fun cs2 er2 => ?_⟩
  · simp [Exercise.run, hc, hlen]
  · simp [Exercise.run, hc, hlen]

/-- C2 witness: the short-circuit applied at the parsed tree of `import os`,
whose critical scan completes with the no-import rule violated. -/
theorem critical_violations_short_circuit_witness :
    Exercise.run sampleExercise (.ok importTree) sampleExecResult
      = some (.FailConstraints true ["You cannot import any other code."]) ∧
    Exercise.run { sampleExercise with constraints := [DisallowedCall "print"] }
        (.ok importTree) sampleExecResult
      = some (.FailConstraints true ["You cannot import any other code."]) := by
  have h := critical_violations_short_circuit sampleExercise sampleExecResult
    importTree [noImportConstraint] check_critical_importTree (by simp)
  exact ⟨h.1, h.2 [DisallowedCall "print"] sampleExecResult⟩

/-! ## Test oracles: concrete instantiations of the external boundaries,
used by concrete counterexamples and witnesses -/

/-- A concrete parser oracle: fails exactly on the fragment `"def f("` (with
the message CPython reports), and parses any other source as a bare name. -/
def tParse : String → Except PySyntaxError Py :=
  fun code =>
    if code = "def f(" then .error { msg := "invalid syntax", lineno := 1 }
    else .ok (Py.Name code [])

/-- A concrete serialiser oracle matching `tParse`. -/
def tUnparse : Py → String
  | .Name id _ => id
  | .Call _ _ => ""
  | .Other _ _ => ""

/-- A concrete token oracle: every `(name, salt)` pair draws the same hex
token. -/
def tTok : String → Int → String := fun _ _ => "0123456789abcdef"

/-- A concrete JSON decoder oracle that always fails, with CPython's message
for non-JSON input. -/
def tJsonFail : String → Except JsonDecodeError Unit :=
  fun _ => .error { msg := "Expecting value: line 1 column 1 (char 0)" }

/-- A concrete schema-validation oracle that always fails. -/
def tValFail : Unit → Except ValidationError _ExecutionStreamResults :=
  fun _ => .error { errors := "field required" }

/-- A concrete engine oracle: completes immediately with empty output. -/
def tEngine : String → EngineInvocation :=
  fun _ => { completionSeconds := 0
             result := { status := "success", stdout := some "", stderr := none } }

/-! ## Claim C4: malformed engine output -/

/-- C4 (code bug): the claim — and the spec — say every malformed captured
output classifies as a runtime failure and never escapes as a crash.  First
conjunct: when the BEGIN sentinel is absent from the captured stdout, the
harness classification crashes with an uncaught `IndexError` (`none`) for
every JSON decoder and validator.  Second conjunct: the crash site is
`_substring_between_two_substrings`, whose `split(left, 1)[1]` indexes an
empty tail.  Third conjunct: with the sentinels present and invalid JSON
between them the code does return the soft runtime-failure result, so the
sentinel-absent case is the one that escapes. -/
theorem missing_sentinel_crashes_harness :
    (∀ (J : Type) (jsonLoads : String → Except JsonDecodeError J)
       (parse_obj : J → Except ValidationError _ExecutionStreamResults),
      classifySandboxResult jsonLoads parse_obj
          (some { status := "success"
                  stdout := some "Pyodide import warning; no sentinels here"
                  stderr := none })
        = none) ∧
    _substring_between_two_substrings "Pyodide import warning; no sentinels here"
        "--- BEGIN JSON RESPONSE ---" "--- END JSON RESPONSE ---" = none ∧
    classifySandboxResult tJsonFail tValFail
        (some { status := "success"
                stdout := some
                  "--- BEGIN JSON RESPONSE ---not json--- END JSON RESPONSE ---"
                stderr := none })
      = some { success := false
               output := "The sandbox failed to return a valid result (Expecting value: line 1 column 1 (char 0))"
               tokens := none
               attempt_time_seconds := some 0 } :=
  ⟨fun _ _ _ => rfl, rfl, rfl⟩

/-! ## Claim C5: the wall-clock timeout -/

/-- C5: an engine invocation that would complete strictly past the fixed
20-second deadline is cancelled by the `asyncio.wait` race
(`_sandbox_execute_with_timeout` returns `None`), the harness classifies it as
the timeout failure — `success = false`, never a success — and the composed
`execute_attempt` returns that same timeout failure whenever assembly
succeeded and the engine invocation for the assembled program is the late
one. -/
theorem late_engine_completion_is_timeout (inv : EngineInvocation)
    (h : _TIMEOUT_SECONDS < inv.completionSeconds) :
    _sandbox_execute_with_timeout inv = none ∧
    (∀ (J : Type) (jsonLoads : String → Except JsonDecodeError J)
       (parse_obj : J → Except ValidationError _ExecutionStreamResults),
      classifySandboxResult jsonLoads parse_obj (_sandbox_execute_with_timeout inv)
        = some { success := false, output := "The attempt took too long to execute."
                 tokens := none, attempt_time_seconds := none }) ∧
    (∀ (J : Type) (jsonLoads : String → Except JsonDecodeError J)
       (parse_obj : J → Except ValidationError _ExecutionStreamResults)
       (parse : String → Except PySyntaxError Py) (unparse : Py → String)
       (tok : String → Int → String) (s1 s3 s5 s7 : String)
       (engine : String → EngineInvocation) (attempt : String)
       (pre post : Option String) (code : String),
      assemble parse unparse tok (assembly s1 s3 s5 s7 attempt pre post) "" = .ok code →
      engine code = inv →
      execute_attempt parse unparse tok jsonLoads parse_obj s1 s3 s5 s7 engine
          attempt pre post
        = some { success := false, output := "The attempt took too long to execute."
                 tokens := none, attempt_time_seconds := none }) := by
  have hn : _sandbox_execute_with_timeout inv = none := by
    unfold _sandbox_execute_with_timeout
    rw [if_neg (not_le.mpr h)]
  refine ⟨hn, fun J jl po => by rw [hn]; rfl, ?_⟩
  intro J jl po parse unparse tok s1 s3 s5 s7 engine attempt pre post code hasm heng
  unfold execute_attempt
  rw [hasm]
  show classifySandboxResult jl po (_sandbox_execute_with_timeout (engine code)) = _
  rw [heng, hn]
  rfl

/-- C5 witness: an invocation that would complete at 21 seconds, one past the
deadline; the assembly of all-empty fragments succeeds with the empty
program. -/
theorem late_engine_completion_is_timeout_witness :
    _sandbox_execute_with_timeout
        { completionSeconds := 21
          result := { status := "success", stdout := some "", stderr := none } }
      = none ∧
    execute_attempt tParse tUnparse tTok tJsonFail tValFail "" "" "" ""
        (fun _ => { completionSeconds := 21
                    result := { status := "success", stdout := some "", stderr := none } })
        "" none none
      = some { success := false, output := "The attempt took too long to execute."
               tokens := none, attempt_time_seconds := none } := by
  have h := late_engine_completion_is_timeout
    { completionSeconds := 21
      result := { status := "success", stdout := some "", stderr := none } }
    (by norm_num [_TIMEOUT_SECONDS])
  exact ⟨h.1, h.2.2 Unit tJsonFail tValFail tParse tUnparse tTok "" "" "" "" _ "" none none
    "" rfl rfl⟩

/-! ## Claim C6: a malformed trusted fragment -/

/-- C6 counterexample: the claim says a malformed trusted fragment is NOT
downgraded to a soft learner-facing Outcome.  First conjunct: with the trusted
exercise-prerun fragment `"def f("` malformed, `execute_attempt` returns an
ordinary unsuccessful `ExecutionResult` — the same soft shape every runtime
failure uses — carrying the labelled message.  Second conjunct: `Exercise.run`
turns exactly such an unsuccessful execution result into the learner-facing
`FailProgramError` Outcome (rendered "Your program ran into an error."), so
the harness-internal defect is downgraded after all. -/
theorem trusted_fragment_error_shown_as_learner_outcome :
    execute_attempt tParse tUnparse tTok tJsonFail tValFail "" "" "" "" tEngine
        "x" (some "def f(") none
      = some { success := false
               output := "SyntaxError at <exercise prerun> on line 1:\n  invalid syntax"
               tokens := none
               attempt_time_seconds := none } ∧
    Exercise.run sampleExercise (.ok printCallTree)
        { success := false
          output := { attempt := [], postrun := []
                      error := ["SyntaxError at <exercise prerun> on line 1:",
                                "  invalid syntax"] }
          attempt_time_seconds := none }
      = some (.FailProgramError
          "SyntaxError at <exercise prerun> on line 1:\n  invalid syntax") := by
  constructor
  · rfl
  · decide

/-- C6 (amended): the first trusted fragment whose source fails to parse makes
the assembly fail fast — no later fragment is processed, whatever follows —
with a syntax-error message naming the fragment and the line; the failure is
however returned as an ordinary unsuccessful `ExecutionResult` (the soft shape
the pipeline later reports as `FailProgramError`), not as a distinct loud
abort. -/
theorem trusted_fragment_error_is_labelled_fail_fast
    (parse : String → Except PySyntaxError Py) (unparse : Py → String)
    (tok : String → Int → String) (a : _SnippetAssemblyContext)
    (rest : List _SnippetAssemblyContext) (acc : String) (se : PySyntaxError)
    (hne : a.text.length ≠ 0) (hparse : parse a.text = .error se) :
    assemble parse unparse tok (a :: rest) acc
      = .error { success := false
                 output := "SyntaxError at <" ++ a.name ++ "> on line "
                   ++ toString se.lineno ++ ":\n  " ++ se.msg
                 tokens := none
                 attempt_time_seconds := none } := by
  unfold assemble
  rw [if_neg hne]
  unfold _prepare_python_source
  rw [hparse]

/-- C6 witness: the fail-fast lemma applied to the malformed exercise-prerun
fragment, followed by arbitrary junk fragments that are never processed. -/
theorem trusted_fragment_error_is_labelled_fail_fast_witness :
    assemble tParse tUnparse tTok
        [{ name := "exercise prerun", text := "def f(", mangle_salt := some 1 },
         { name := "junk", text := "also bad(", mangle_salt := some 0 }] ""
      = .error { success := false
                 output := "SyntaxError at <exercise prerun> on line 1:\n  invalid syntax"
                 tokens := none
                 attempt_time_seconds := none } :=
  trusted_fragment_error_is_labelled_fail_fast tParse tUnparse tTok
    { name := "exercise prerun", text := "def f(", mangle_salt := some 1 }
    [{ name := "junk", text := "also bad(", mangle_salt := some 0 }] ""
    { msg := "invalid syntax", lineno := 1 } (by decide) (by rfl)

/-! ## Mangling lemmas (claims C8 and C9) -/

/-- Python `replace(old, new, 1)` under a `startswith(old)` guard: the first
occurrence is at position 0, so the result is `new` followed by the rest. -/
theorem replaceFirst_of_prefix (old new : List Char) :
    ∀ s : List Char, old ≠ [] → old.isPrefixOf s = true →
      replaceFirst old new s = new ++ s.drop old.length
  | [], hne, h => by
      cases old with
      | nil => exact absurd rfl hne
      | cons a as => simp [List.isPrefixOf] at h
  | c :: rest, hne, h => by
      unfold replaceFirst
      rw [if_pos h]

/-- A mangled name never carries the reserved marker: the replacement text
starts with `_rozelle_mangled_`, whose second character already differs from
the marker's. -/
theorem marker_not_prefixOf_replacement (salt : Int) (tk : String) (xs : List Char) :
    mangleMarkerChars.isPrefixOf (mangledReplacementChars salt tk ++ xs) = false := by
  have h : mangledReplacementChars salt tk ++ xs
      = '_' :: 'r' :: ("ozelle_mangled_".data
          ++ ((toString salt ++ "_" ++ tk ++ "__").data ++ xs)) := by
    show ("_rozelle_mangled_" ++ (toString salt ++ "_" ++ tk ++ "__")).data ++ xs = _
    rw [String.data_append]
    rfl
  rw [h]
  show List.isPrefixOf ('_' :: 'R' :: "Z_MANGLE__".data) _ = false
  simp [List.isPrefixOf]

/-- Mangling a single identifier twice with the same salt equals mangling it
once: the output of a rewrite no longer starts with the reserved marker. -/
theorem mangle_identifier_idem (tok : String → Int → String) (name : String)
    (salt : Int) :
    _mangle_identifier_if_possible tok (_mangle_identifier_if_possible tok name salt)
        salt
      = _mangle_identifier_if_possible tok name salt := by
  by_cases h : mangleMarkerChars.isPrefixOf name.data = true
  · have hfirst : _mangle_identifier_if_possible tok name salt
        = ⟨mangledReplacementChars salt (tok name salt)
            ++ name.data.drop mangleMarkerChars.length⟩ := by
      unfold _mangle_identifier_if_possible
      rw [if_pos h, replaceFirst_of_prefix _ _ name.data (by decide) h]
    rw [hfirst]
    have hnp : mangleMarkerChars.isPrefixOf
        ((⟨mangledReplacementChars salt (tok name salt)
            ++ name.data.drop mangleMarkerChars.length⟩ : String)).data = false :=
      marker_not_prefixOf_replacement salt (tok name salt) _
    unfold _mangle_identifier_if_possible
    rw [if_neg (by simp [hnp])]
  · have hfirst : _mangle_identifier_if_possible tok name salt = name := by
      unfold _mangle_identifier_if_possible
      rw [if_neg h]
    rw [hfirst, hfirst]

mutual

/-- The name mangler is idempotent on trees under a fixed salt. -/
theorem mangleT_idem (tok : String → Int → String) (salt : Int) :
    ∀ t : Py, mangleT tok salt (mangleT tok salt t) = mangleT tok salt t
  | .Name id ch => by
      simp only [mangleT]
      rw [mangle_identifier_idem]
  | .Call f args => by
      simp only [mangleT]
      rw [mangleT_idem tok salt f, mangleL_idem tok salt args]
  | .Other k ch => by
      simp only [mangleT]
      rw [mangleL_idem tok salt ch]

/-- The name mangler is idempotent on child lists under a fixed salt. -/
theorem mangleL_idem (tok : String → Int → String) (salt : Int) :
    ∀ ts : List Py, mangleL tok salt (mangleL tok salt ts) = mangleL tok salt ts
  | [] => rfl
  | t :: ts => by
      simp only [mangleL]
      rw [mangleT_idem tok salt t, mangleL_idem tok salt ts]

end

mutual

/-- The identifiers of a tree, in depth-first order. -/
def idsT : Py → List String
  | .Name id ch => id :: idsL ch
  | .Call f args => idsT f ++ idsL args
  | .Other _ ch => idsL ch

/-- The identifiers of a list of trees. -/
def idsL : List Py → List String
  | [] => []
  | t :: ts => idsT t ++ idsL ts

end

/-- The identifiers occurring in a parsed tree, in depth-first order. -/
def Py.identifiers (t : Py) : List String := idsT t

/-! ## Claim C8: the attempt fragment is never mangled -/

/-- C8: in `execute_attempt`'s assembly the attempt fragment is the one with
`mangle_salt = None`; preparing any attempt tree under that salt applies no
mangling at all — the prepared tree is the parsed tree, so every identifier
(reserved-prefixed ones included) is left exactly as in the input — and the
serialised fragment is the serialisation of the untouched tree. -/
theorem attempt_fragment_never_mangled (tok : String → Int → String) (t : Py)
    (s1 s3 s5 s7 attempt : String) (pre post : Option String)
    (parse : String → Except PySyntaxError Py) (unparse : Py → String)
    (code : String) (hparse : parse code = .ok t) :
    ((assembly s1 s3 s5 s7 attempt pre post).get? 3
       = some { name := "attempt", text := attempt, mangle_salt := none }) ∧
    applyMangleStage tok _SALT_ATTEMPT t = t ∧
    (applyMangleStage tok _SALT_ATTEMPT t).identifiers = t.identifiers ∧
    _prepare_python_source parse unparse tok code _SALT_ATTEMPT = .ok (unparse t) := by
  refine ⟨rfl, rfl, rfl, ?_⟩
  unfold _prepare_python_source
  rw [hparse]
  rfl

/-- C8 witness: the attempt source `_RZ_MANGLE__x` — an identifier that even
carries the reserved marker — assembled under the attempt salt, serialises to
itself. -/
theorem attempt_fragment_never_mangled_witness :
    ((assembly "" "" "" "" "_RZ_MANGLE__x" none none).get? 3
       = some { name := "attempt", text := "_RZ_MANGLE__x", mangle_salt := none }) ∧
    applyMangleStage tTok _SALT_ATTEMPT (Py.Name "_RZ_MANGLE__x" [])
      = Py.Name "_RZ_MANGLE__x" [] ∧
    (applyMangleStage tTok _SALT_ATTEMPT (Py.Name "_RZ_MANGLE__x" [])).identifiers
      = (Py.Name "_RZ_MANGLE__x" []).identifiers ∧
    _prepare_python_source tParse tUnparse tTok "_RZ_MANGLE__x" _SALT_ATTEMPT
      = .ok (tUnparse (Py.Name "_RZ_MANGLE__x" [])) :=
  attempt_fragment_never_mangled tTok (Py.Name "_RZ_MANGLE__x" []) "" "" "" ""
    "_RZ_MANGLE__x" none none tParse tUnparse "_RZ_MANGLE__x" (by rfl)

/-! ## Claim C9: mangling is idempotent under a fixed salt -/

/-- C9: preparing a trusted fragment with a salt serialises its mangled tree;
re-parsing that output (hypothesis: the parser inverts the serialiser on it)
and preparing it again with the same salt is a no-op — the same source text
comes back, because the tree mangler is idempotent (mangled names no longer
carry the reserved marker). -/
theorem mangling_idempotent (parse : String → Except PySyntaxError Py)
    (unparse : Py → String) (tok : String → Int → String) (salt : Int)
    (code : String) (t : Py)
    (hparse : parse code = .ok t)
    (hroundtrip : parse (unparse (mangleT tok salt t)) = .ok (mangleT tok salt t)) :
    _prepare_python_source parse unparse tok code (some salt)
      = .ok (unparse (mangleT tok salt t)) ∧
    _prepare_python_source parse unparse tok (unparse (mangleT tok salt t)) (some salt)
      = .ok (unparse (mangleT tok salt t)) := by
  constructor
  · unfold _prepare_python_source
    rw [hparse]
    rfl
  · unfold _prepare_python_source
    rw [hroundtrip]
    show Except.ok (unparse (applyMangleStage tok (some salt) (mangleT tok salt t))) = _
    rw [show applyMangleStage tok (some salt) (mangleT tok salt t)
          = mangleT tok salt (mangleT tok salt t) from rfl,
        mangleT_idem tok salt t]

/-- C9 witness: the trusted fragment `_RZ_MANGLE__x` mangled with salt 0 under
the concrete oracles; the second pass returns the mangled text unchanged. -/
theorem mangling_idempotent_witness :
    _prepare_python_source tParse tUnparse tTok "_RZ_MANGLE__x" (some 0)
      = .ok (tUnparse (mangleT tTok 0 (Py.Name "_RZ_MANGLE__x" []))) ∧
    _prepare_python_source tParse tUnparse tTok
        (tUnparse (mangleT tTok 0 (Py.Name "_RZ_MANGLE__x" []))) (some 0)
      = .ok (tUnparse (mangleT tTok 0 (Py.Name "_RZ_MANGLE__x" []))) :=
  mangling_idempotent tParse tUnparse tTok 0 "_RZ_MANGLE__x"
    (Py.Name "_RZ_MANGLE__x" []) (by rfl) (by rfl)

end Rozelle
